import Mathlib

/-!
Verification of the SNPP paging client (snpp.go).

The client consists of three functions:
* `read`  — a frame reader: repeatedly reads chunks of up to 256 bytes from
  the connection, appends them to an accumulating buffer, and stops when the
  most recently read chunk ends with CR LF, when the stream reports a clean
  end-of-input, or when a transport error occurs.  The terminator check
  indexes `readBuf[n-2]` and `readBuf[n-1]` without a length guard.
* `write` — writes a command string through a buffered writer and flushes it.
* `SendPage` — dials the gateway, then performs the five-step handshake
  (greeting 220, PAGE/250, MESS/250, SEND/250, QUIT/221), returning a distinct
  sentinel error on each protocol mismatch, and closing the connection via a
  deferred close on every return path.

The embedding models the byte stream delivered to `read` as a script of read
results (`ReadStep`), the buffered writer's possible failures as a
`WriteBehavior`, and a whole gateway interaction as a `Gateway` record holding
the scripts for the five reads and the behaviors of the four writes.
`SendPage` maps such a record (plus the pager number and message, as byte
strings) to an outcome together with the trace of connection events: the
commands passed to `write`, and the `close` performed when the call returns
(Go runs the deferred close both on normal return and on panic unwinding).
-/

namespace Snpp

/-- Byte encoding of an ASCII string literal (Go strings are byte strings;
all literals in the source are ASCII). -/
def ascii (s : String) : List UInt8 :=
  s.data.map (fun c => UInt8.ofNat c.toNat)

/-- Model of Go `strings.HasPrefix s p`: `p` is a byte-prefix of `s`. -/
def startsWith : List UInt8 → List UInt8 → Bool
  | _, [] => true
  | [], _ :: _ => false
  | a :: s, b :: p => a == b && startsWith s p

/-- Whether a byte string contains an embedded CR LF pair. -/
def hasCRLF : List UInt8 → Bool
  | a :: b :: rest => (a == 13 && b == 10) || hasCRLF (b :: rest)
  | _ => false

/-- One result of a `conn.Read(readBuf)` call, as delivered by the stream:
`ok data` is `(n, nil)` with `data = readBuf[:n]`; `eof data` is `(n, io.EOF)`;
`fail tag data` is `(n, err)` for a non-EOF transport error identified by
`tag`.  (The source never looks at the data accompanying an error, but the
interface delivers it.) -/
inductive ReadStep
  | ok (data : List UInt8)
  | eof (data : List UInt8)
  | fail (tag : Nat) (data : List UInt8)
deriving DecidableEq

/-- Outcome of the `read` function on a given script: `ret s e` models
returning `(s, e)` (with `e = some tag` a transport error); `panics` models
the out-of-range index `readBuf[n-2]` / `readBuf[n-1]` on a chunk shorter
than two bytes; `blocked` means the script is exhausted while the loop would
issue another blocking `conn.Read`. -/
inductive ReadOutcome
  | panics
  | blocked
  | ret (s : List UInt8) (e : Option Nat)
deriving DecidableEq

/-- The source's terminator test `readBuf[n-2] == 13 && readBuf[n-1] == 10`
on a chunk of `n` bytes: `none` when `n < 2` (the index is out of range and
Go panics), otherwise `some` of the test on the chunk's last two bytes. -/
def tailCheck (d : List UInt8) : Option Bool :=
  match d.reverse with
  | b :: a :: _ => some (a == 13 && b == 10)
  | _ => none

/-- The accumulation loop of `read` (lines 25–41 of snpp.go), with `acc` the
contents of `bigBuffer`. -/
def readLoop (acc : List UInt8) : List ReadStep → ReadOutcome
  | [] => ReadOutcome.blocked
  | ReadStep.fail t _ :: _ => ReadOutcome.ret [] (some t)
  | ReadStep.eof _ :: _ => ReadOutcome.ret acc none
  | ReadStep.ok d :: rest =>
      match tailCheck d with
      | none => ReadOutcome.panics
      | some true => ReadOutcome.ret (acc ++ d) none
      | some false => readLoop (acc ++ d) rest

/-- Model of `read(conn)`: run the loop with an empty buffer on the script of
read results the connection delivers. -/
def read (steps : List ReadStep) : ReadOutcome :=
  readLoop [] steps

/-- Possible failures of one `write(conn, msg)` call: the buffered
`WriteString` may fail, and otherwise `Flush` may fail. -/
structure WriteBehavior where
  writeStringErr : Option Nat
  flushErr : Option Nat
deriving DecidableEq

/-- Model of `write(conn, msg)` (lines 46–56): returns the `WriteString`
error if any, otherwise the `Flush` error, otherwise success. -/
def write (b : WriteBehavior) : Option Nat :=
  match b.writeStringErr with
  | some t => some t
  | none => b.flushErr

/-- The error values `SendPage` can return: `transport tag` is any I/O error
surfaced from the dial, reader, or writer; the five remaining constructors
are the package's distinct sentinel errors (`errors.New` values). -/
inductive SnppError
  | transport (tag : Nat)
  | failedConnection
  | rejectedPhone
  | rejectedMessage
  | failedSend
  | forceQuit
deriving DecidableEq

/-- Outcome of a `SendPage` invocation: `ret none` is a nil-error return,
`ret (some e)` returns error `e`; `panics` propagates a panic from `read`;
`blocked` means a read blocks forever (its script was exhausted). -/
inductive SPOutcome
  | panics
  | blocked
  | ret (e : Option SnppError)
deriving DecidableEq

/-- Observable events on the connection: a command string passed to `write`,
and the (deferred) `conn.Close()`. -/
inductive Event
  | writeCmd (cmd : List UInt8)
  | close
deriving DecidableEq

/-- Number of `close` events in a trace. -/
def closes : List Event → Nat
  | [] => 0
  | Event.close :: rest => closes rest + 1
  | Event.writeCmd _ :: rest => closes rest

/-- Expected status prefixes (ASCII "220", "250", "221"). -/
def p220 : List UInt8 := ascii "220"

def p250 : List UInt8 := ascii "250"

def p221 : List UInt8 := ascii "221"

/-- Bytes of `fmt.Sprintf ("PAGE %s \r\n", number)`. -/
def PAGEcmd (number : List UInt8) : List UInt8 :=
  ascii "PAGE " ++ number ++ ascii " \r\n"

/-- Bytes of `fmt.Sprintf ("MESS %s \r\n", message)`. -/
def MESScmd (message : List UInt8) : List UInt8 :=
  ascii "MESS " ++ message ++ ascii " \r\n"

/-- Bytes of `"SEND \r\n"`. -/
def SENDcmd : List UInt8 := ascii "SEND \r\n"

/-- Bytes of `"QUIT \r\n"`. -/
def QUITcmd : List UInt8 := ascii "QUIT \r\n"

/-- A whole gateway interaction: the read-result scripts delivered to the
five `read` calls, and the behaviors of the four `write` calls, in handshake
order. -/
structure Gateway where
  r1 : List ReadStep
  r2 : List ReadStep
  r3 : List ReadStep
  r4 : List ReadStep
  r5 : List ReadStep
  w1 : WriteBehavior
  w2 : WriteBehavior
  w3 : WriteBehavior
  w4 : WriteBehavior
deriving DecidableEq

/-- Model of `SendPage` (lines 71–132).  `dialErr = some t` models a failed
`net.DialTimeout` (returned before the close is deferred, so the trace is
empty); otherwise the five-step handshake runs against the gateway scripts.
Each return path lists its full event trace explicitly: the commands passed
to `write` so far, then the deferred `conn.Close()` (also run when a panic
unwinds).  A `blocked` read never returns, so its trace has no close. -/
def SendPage (dialErr : Option Nat) (g : Gateway) (number message : List UInt8) :
    SPOutcome × List Event :=
  match dialErr with
  | some t => (SPOutcome.ret (some (SnppError.transport t)), [])
  | none =>
    match read g.r1 with
    | ReadOutcome.panics => (SPOutcome.panics, [Event.close])
    | ReadOutcome.blocked => (SPOutcome.blocked, [])
    | ReadOutcome.ret _ (some t) =>
        (SPOutcome.ret (some (SnppError.transport t)), [Event.close])
    | ReadOutcome.ret msg1 none =>
      if startsWith msg1 p220 then
        match write g.w1 with
        | some t =>
            (SPOutcome.ret (some (SnppError.transport t)),
             [Event.writeCmd (PAGEcmd number), Event.close])
        | none =>
          match read g.r2 with
          | ReadOutcome.panics =>
              (SPOutcome.panics, [Event.writeCmd (PAGEcmd number), Event.close])
          | ReadOutcome.blocked =>
              (SPOutcome.blocked, [Event.writeCmd (PAGEcmd number)])
          | ReadOutcome.ret _ (some t) =>
              (SPOutcome.ret (some (SnppError.transport t)),
               [Event.writeCmd (PAGEcmd number), Event.close])
          | ReadOutcome.ret msg2 none =>
            if startsWith msg2 p250 then
              match write g.w2 with
              | some t =>
                  (SPOutcome.ret (some (SnppError.transport t)),
                   [Event.writeCmd (PAGEcmd number),
                    Event.writeCmd (MESScmd message), Event.close])
              | none =>
                match read g.r3 with
                | ReadOutcome.panics =>
                    (SPOutcome.panics,
                     [Event.writeCmd (PAGEcmd number),
                      Event.writeCmd (MESScmd message), Event.close])
                | ReadOutcome.blocked =>
                    (SPOutcome.blocked,
                     [Event.writeCmd (PAGEcmd number),
                      Event.writeCmd (MESScmd message)])
                | ReadOutcome.ret _ (some t) =>
                    (SPOutcome.ret (some (SnppError.transport t)),
                     [Event.writeCmd (PAGEcmd number),
                      Event.writeCmd (MESScmd message), Event.close])
                | ReadOutcome.ret msg3 none =>
                  if startsWith msg3 p250 then
                    match write g.w3 with
                    | some t =>
                        (SPOutcome.ret (some (SnppError.transport t)),
                         [Event.writeCmd (PAGEcmd number),
                          Event.writeCmd (MESScmd message),
                          Event.writeCmd SENDcmd, Event.close])
                    | none =>
                      match read g.r4 with
                      | ReadOutcome.panics =>
                          (SPOutcome.panics,
                           [Event.writeCmd (PAGEcmd number),
                            Event.writeCmd (MESScmd message),
                            Event.writeCmd SENDcmd, Event.close])
                      | ReadOutcome.blocked =>
                          (SPOutcome.blocked,
                           [Event.writeCmd (PAGEcmd number),
                            Event.writeCmd (MESScmd message),
                            Event.writeCmd SENDcmd])
                      | ReadOutcome.ret _ (some t) =>
                          (SPOutcome.ret (some (SnppError.transport t)),
                           [Event.writeCmd (PAGEcmd number),
                            Event.writeCmd (MESScmd message),
                            Event.writeCmd SENDcmd, Event.close])
                      | ReadOutcome.ret msg4 none =>
                        if startsWith msg4 p250 then
                          match write g.w4 with
                          | some t =>
                              (SPOutcome.ret (some (SnppError.transport t)),
                               [Event.writeCmd (PAGEcmd number),
                                Event.writeCmd (MESScmd message),
                                Event.writeCmd SENDcmd,
                                Event.writeCmd QUITcmd, Event.close])
                          | none =>
                            match read g.r5 with
                            | ReadOutcome.panics =>
                                (SPOutcome.panics,
                                 [Event.writeCmd (PAGEcmd number),
                                  Event.writeCmd (MESScmd message),
                                  Event.writeCmd SENDcmd,
                                  Event.writeCmd QUITcmd, Event.close])
                            | ReadOutcome.blocked =>
                                (SPOutcome.blocked,
                                 [Event.writeCmd (PAGEcmd number),
                                  Event.writeCmd (MESScmd message),
                                  Event.writeCmd SENDcmd,
                                  Event.writeCmd QUITcmd])
                            | ReadOutcome.ret _ (some t) =>
                                (SPOutcome.ret (some (SnppError.transport t)),
                                 [Event.writeCmd (PAGEcmd number),
                                  Event.writeCmd (MESScmd message),
                                  Event.writeCmd SENDcmd,
                                  Event.writeCmd QUITcmd, Event.close])
                            | ReadOutcome.ret msg5 none =>
                              if startsWith msg5 p221 then
                                (SPOutcome.ret none,
                                 [Event.writeCmd (PAGEcmd number),
                                  Event.writeCmd (MESScmd message),
                                  Event.writeCmd SENDcmd,
                                  Event.writeCmd QUITcmd, Event.close])
                              else
                                (SPOutcome.ret (some SnppError.forceQuit),
                                 [Event.writeCmd (PAGEcmd number),
                                  Event.writeCmd (MESScmd message),
                                  Event.writeCmd SENDcmd,
                                  Event.writeCmd QUITcmd, Event.close])
                        else
                          (SPOutcome.ret (some SnppError.failedSend),
                           [Event.writeCmd (PAGEcmd number),
                            Event.writeCmd (MESScmd message),
                            Event.writeCmd SENDcmd, Event.close])
                  else
                    (SPOutcome.ret (some SnppError.rejectedMessage),
                     [Event.writeCmd (PAGEcmd number),
                      Event.writeCmd (MESScmd message), Event.close])
            else
              (SPOutcome.ret (some SnppError.rejectedPhone),
               [Event.writeCmd (PAGEcmd number), Event.close])
      else
        (SPOutcome.ret (some SnppError.failedConnection), [Event.close])

/-- The data carried by one read result. -/
def chunkData : ReadStep → List UInt8
  | ReadStep.ok d => d
  | ReadStep.eof d => d
  | ReadStep.fail _ d => d

/-- Concatenation of the data of a list of read results. -/
def flatData : List ReadStep → List UInt8
  | [] => []
  | s :: rest => chunkData s ++ flatData rest

/-- A read result that keeps the loop of `read` going: a chunk delivered with
a nil error, at least two bytes long (shorter chunks make the terminator
check panic), and not ending in CR LF. -/
def goodMid : ReadStep → Bool
  | ReadStep.ok d =>
      match tailCheck d with
      | some false => true
      | _ => false
  | _ => false

/-- Gateway response "220 Hi\r\n" as bytes. -/
def t220 : List UInt8 := [50, 50, 48, 32, 72, 105, 13, 10]

/-- Gateway response "250 OK\r\n" as bytes. -/
def t250 : List UInt8 := [50, 53, 48, 32, 79, 75, 13, 10]

/-- Gateway response "221 Bye\r\n" as bytes. -/
def t221 : List UInt8 := [50, 50, 49, 32, 66, 121, 101, 13, 10]

/-- Gateway response "550\r\n" as bytes (a rejection). -/
def t550 : List UInt8 := [53, 53, 48, 13, 10]

/-- One-chunk read scripts delivering the responses above. -/
def r220 : List ReadStep := [ReadStep.ok t220]

def r250 : List ReadStep := [ReadStep.ok t250]

def r221 : List ReadStep := [ReadStep.ok t221]

def r550 : List ReadStep := [ReadStep.ok t550]

/-- A write call that succeeds. -/
def wOK : WriteBehavior := ⟨none, none⟩

/-- A gateway accepting every step of the handshake. -/
def gwGood : Gateway := ⟨r220, r250, r250, r250, r221, wOK, wOK, wOK, wOK⟩

/-- Gateways rejecting the handshake at step 1, 2, 3, 4, 5 respectively. -/
def gwBad1 : Gateway := ⟨r550, [], [], [], [], wOK, wOK, wOK, wOK⟩

def gwBad2 : Gateway := ⟨r220, r550, [], [], [], wOK, wOK, wOK, wOK⟩

def gwBad3 : Gateway := ⟨r220, r250, r550, [], [], wOK, wOK, wOK, wOK⟩

def gwBad4 : Gateway := ⟨r220, r250, r250, r550, [], wOK, wOK, wOK, wOK⟩

def gwBad5 : Gateway := ⟨r220, r250, r250, r250, r550, wOK, wOK, wOK, wOK⟩

/-- Gateways whose k-th read fails with a transport error. -/
def gwF1 : Gateway := ⟨[ReadStep.fail 7 []], [], [], [], [], wOK, wOK, wOK, wOK⟩

def gwF2 : Gateway := ⟨r220, [ReadStep.fail 9 []], [], [], [], wOK, wOK, wOK, wOK⟩

def gwF3 : Gateway := ⟨r220, r250, [ReadStep.fail 12 [1, 2]], [], [], wOK, wOK, wOK, wOK⟩

def gwF4 : Gateway := ⟨r220, r250, r250, [ReadStep.fail 14 []], [], wOK, wOK, wOK, wOK⟩

def gwF5 : Gateway := ⟨r220, r250, r250, r250, [ReadStep.fail 16 []], wOK, wOK, wOK, wOK⟩

/-- Gateways whose k-th write fails (buffered write error or flush error). -/
def gwW1 : Gateway := ⟨r220, [], [], [], [], ⟨some 8, none⟩, wOK, wOK, wOK⟩

def gwW2 : Gateway := ⟨r220, r250, [], [], [], wOK, ⟨none, some 11⟩, wOK, wOK⟩

def gwW3 : Gateway := ⟨r220, r250, r250, [], [], wOK, wOK, ⟨some 13, none⟩, wOK⟩

def gwW4 : Gateway := ⟨r220, r250, r250, r250, [], wOK, wOK, wOK, ⟨none, some 15⟩⟩

/-- Consuming loop-continuing chunks accumulates their data: the loop of
`read` run on `steps ++ tail`, where every result in `steps` is a nil-error
chunk of at least two bytes not ending in CR LF, reaches `tail` with all the
data of `steps` appended to the buffer. -/
theorem readLoop_flat :
    ∀ steps : List ReadStep, steps.all goodMid = true →
      ∀ (acc : List UInt8) (tail : List ReadStep),
        readLoop acc (steps ++ tail) = readLoop (acc ++ flatData steps) tail := by
  intro steps
  induction steps with
  | nil =>
      intro _ acc tail
      simp [flatData]
  | cons s rest ih =>
      intro h acc tail
      simp only [List.all_cons, Bool.and_eq_true] at h
      obtain ⟨hs, hrest⟩ := h
      cases s with
      | eof d => simp [goodMid] at hs
      | fail t d => simp [goodMid] at hs
      | ok d =>
          cases htc : tailCheck d with
          | none => simp [goodMid, htc] at hs
          | some b =>
              cases b with
              | true => simp [goodMid, htc] at hs
              | false =>
                  simp only [List.cons_append, readLoop, htc]
                  rw [List.append_eq, ih hrest (acc ++ d) tail]
                  simp [flatData, chunkData, List.append_assoc]

/-- C2: the frame reader is claimed to survive chunks shorter than two bytes
by treating them as containing no terminator; in the source, a 1-byte chunk
makes the terminator check index `readBuf[-1]` and a 0-byte chunk index
`readBuf[-2]`, both out-of-range panics. -/
theorem read_short_chunk_panics :
    read [ReadStep.ok [50]] = ReadOutcome.panics ∧
      read [ReadStep.ok []] = ReadOutcome.panics := by decide

/-- C5 counterexample: when a read delivers bytes together with the
end-of-input signal, the reader returns without error but drops those bytes:
on the single result `(3 bytes "220", io.EOF)` it returns the empty string,
not "220". -/
theorem read_eof_final_chunk_dropped :
    read [ReadStep.eof [50, 50, 48]] = ReadOutcome.ret [] none ∧
      read [ReadStep.eof [50, 50, 48]] ≠ ReadOutcome.ret [50, 50, 48] none := by
  decide

/-- C5 (amended): on a clean end-of-input before any terminator, the reader
returns without error the accumulation of the chunks delivered before the
end-of-input signal; bytes delivered in the same read call as the signal are
discarded. -/
theorem read_eof_returns_prior_chunks (steps : List ReadStep) (d : List UInt8)
    (h : steps.all goodMid = true) :
    read (steps ++ [ReadStep.eof d]) = ReadOutcome.ret (flatData steps) none := by
  unfold read
  rw [readLoop_flat steps h [] [ReadStep.eof d]]
  simp [readLoop]

/-- Witness for the amended C5: two chunks "22" then EOF carrying "7"; the
reader returns "22" without error. -/
theorem read_eof_returns_prior_chunks_check :
    [ReadStep.ok [50, 50]].all goodMid = true ∧
      read ([ReadStep.ok [50, 50]] ++ [ReadStep.eof [55]]) =
        ReadOutcome.ret (flatData [ReadStep.ok [50, 50]]) none :=
  ⟨by decide, read_eof_returns_prior_chunks [ReadStep.ok [50, 50]] [55] (by decide)⟩

/-- C10 counterexample: the claim quantifies over every stream in which no
single chunk ends in CR LF; on the stream delivering the single 1-byte chunk
CR the reader panics rather than continuing to read. -/
theorem read_one_byte_chunk_not_continuing :
    read [ReadStep.ok [13]] = ReadOutcome.panics ∧
      read [ReadStep.ok [13]] ≠ ReadOutcome.blocked := by decide

/-- C10 (amended): restricted to chunks of at least two bytes, a stream in
which no chunk ends in CR LF never stops the reader via the terminator rule:
after consuming every such chunk the loop is still reading (it stops only at
a later end-of-input or error), even if the accumulated buffer contains
CR LF across a chunk boundary. -/
theorem read_no_chunk_crlf_keeps_reading (steps : List ReadStep)
    (h : steps.all goodMid = true) :
    read steps = ReadOutcome.blocked := by
  unfold read
  have hflat := readLoop_flat steps h [] []
  rw [List.append_nil] at hflat
  rw [hflat]
  rfl

/-- Witness for the amended C10: the CR arrives as the last byte of one
chunk and the LF as the first byte of the next, so the accumulated buffer
contains CR LF, yet the reader keeps reading. -/
theorem read_no_chunk_crlf_keeps_reading_check :
    [ReadStep.ok [50, 50, 48, 13], ReadStep.ok [10, 65]].all goodMid = true ∧
      hasCRLF (flatData [ReadStep.ok [50, 50, 48, 13], ReadStep.ok [10, 65]]) = true ∧
      read [ReadStep.ok [50, 50, 48, 13], ReadStep.ok [10, 65]] = ReadOutcome.blocked :=
  ⟨by decide, by decide,
    read_no_chunk_crlf_keeps_reading
      [ReadStep.ok [50, 50, 48, 13], ReadStep.ok [10, 65]] (by decide)⟩

/-- C1: a mismatched status prefix at handshake step i makes SendPage return
exactly the failure signal for step i — ErrFailedConnection, ErrRejectedPhone,
ErrRejectedMessage, ErrFailedSend, ErrForceQuit respectively — and the trace
shows that no command for any later step is written to the connection. -/
theorem SendPage_mismatch_exact_error :
    (∀ (g : Gateway) (n m s1 : List UInt8),
        read g.r1 = ReadOutcome.ret s1 none →
        startsWith s1 p220 = false →
        SendPage none g n m =
          (SPOutcome.ret (some SnppError.failedConnection), [Event.close])) ∧
    (∀ (g : Gateway) (n m s1 s2 : List UInt8),
        read g.r1 = ReadOutcome.ret s1 none → startsWith s1 p220 = true →
        write g.w1 = none →
        read g.r2 = ReadOutcome.ret s2 none → startsWith s2 p250 = false →
        SendPage none g n m =
          (SPOutcome.ret (some SnppError.rejectedPhone),
           [Event.writeCmd (PAGEcmd n), Event.close])) ∧
    (∀ (g : Gateway) (n m s1 s2 s3 : List UInt8),
        read g.r1 = ReadOutcome.ret s1 none → startsWith s1 p220 = true →
        write g.w1 = none →
        read g.r2 = ReadOutcome.ret s2 none → startsWith s2 p250 = true →
        write g.w2 = none →
        read g.r3 = ReadOutcome.ret s3 none → startsWith s3 p250 = false →
        SendPage none g n m =
          (SPOutcome.ret (some SnppError.rejectedMessage),
           [Event.writeCmd (PAGEcmd n), Event.writeCmd (MESScmd m), Event.close])) ∧
    (∀ (g : Gateway) (n m s1 s2 s3 s4 : List UInt8),
        read g.r1 = ReadOutcome.ret s1 none → startsWith s1 p220 = true →
        write g.w1 = none →
        read g.r2 = ReadOutcome.ret s2 none → startsWith s2 p250 = true →
        write g.w2 = none →
        read g.r3 = ReadOutcome.ret s3 none → startsWith s3 p250 = true →
        write g.w3 = none →
        read g.r4 = ReadOutcome.ret s4 none → startsWith s4 p250 = false →
        SendPage none g n m =
          (SPOutcome.ret (some SnppError.failedSend),
           [Event.writeCmd (PAGEcmd n), Event.writeCmd (MESScmd m),
            Event.writeCmd SENDcmd, Event.close])) ∧
    (∀ (g : Gateway) (n m s1 s2 s3 s4 s5 : List UInt8),
        read g.r1 = ReadOutcome.ret s1 none → startsWith s1 p220 = true →
        write g.w1 = none →
        read g.r2 = ReadOutcome.ret s2 none → startsWith s2 p250 = true →
        write g.w2 = none →
        read g.r3 = ReadOutcome.ret s3 none → startsWith s3 p250 = true →
        write g.w3 = none →
        read g.r4 = ReadOutcome.ret s4 none → startsWith s4 p250 = true →
        write g.w4 = none →
        read g.r5 = ReadOutcome.ret s5 none → startsWith s5 p221 = false →
        SendPage none g n m =
          (SPOutcome.ret (some SnppError.forceQuit),
           [Event.writeCmd (PAGEcmd n), Event.writeCmd (MESScmd m),
            Event.writeCmd SENDcmd, Event.writeCmd QUITcmd, Event.close])) := by
  refine ⟨?_, ?_, ?_, ?_, ?_⟩
  · intro g n m s1 h1 q1
    simp [SendPage, h1, q1]
  · intro g n m s1 s2 h1 q1 hw1 h2 q2
    simp [SendPage, h1, q1, hw1, h2, q2]
  · intro g n m s1 s2 s3 h1 q1 hw1 h2 q2 hw2 h3 q3
    simp [SendPage, h1, q1, hw1, h2, q2, hw2, h3, q3]
  · intro g n m s1 s2 s3 s4 h1 q1 hw1 h2 q2 hw2 h3 q3 hw3 h4 q4
    simp [SendPage, h1, q1, hw1, h2, q2, hw2, h3, q3, hw3, h4, q4]
  · intro g n m s1 s2 s3 s4 s5 h1 q1 hw1 h2 q2 hw2 h3 q3 hw3 h4 q4 hw4 h5 q5
    simp [SendPage, h1, q1, hw1, h2, q2, hw2, h3, q3, hw3, h4, q4, hw4, h5, q5]

/-- Witness for C1: concrete gateways rejecting at each of the five steps
produce the five distinct sentinel errors with exactly the commands of the
earlier steps on the wire. -/
theorem SendPage_mismatch_exact_error_checks :
    SendPage none gwBad1 [49] [104] =
      (SPOutcome.ret (some SnppError.failedConnection), [Event.close]) ∧
    SendPage none gwBad2 [49] [104] =
      (SPOutcome.ret (some SnppError.rejectedPhone),
       [Event.writeCmd (PAGEcmd [49]), Event.close]) ∧
    SendPage none gwBad3 [49] [104] =
      (SPOutcome.ret (some SnppError.rejectedMessage),
       [Event.writeCmd (PAGEcmd [49]), Event.writeCmd (MESScmd [104]), Event.close]) ∧
    SendPage none gwBad4 [49] [104] =
      (SPOutcome.ret (some SnppError.failedSend),
       [Event.writeCmd (PAGEcmd [49]), Event.writeCmd (MESScmd [104]),
        Event.writeCmd SENDcmd, Event.close]) ∧
    SendPage none gwBad5 [49] [104] =
      (SPOutcome.ret (some SnppError.forceQuit),
       [Event.writeCmd (PAGEcmd [49]), Event.writeCmd (MESScmd [104]),
        Event.writeCmd SENDcmd, Event.writeCmd QUITcmd, Event.close]) :=
  ⟨SendPage_mismatch_exact_error.1 gwBad1 [49] [104] t550 (by decide) (by decide),
   SendPage_mismatch_exact_error.2.1 gwBad2 [49] [104] t220 t550
     (by decide) (by decide) (by decide) (by decide) (by decide),
   SendPage_mismatch_exact_error.2.2.1 gwBad3 [49] [104] t220 t250 t550
     (by decide) (by decide) (by decide) (by decide) (by decide) (by decide)
     (by decide) (by decide),
   SendPage_mismatch_exact_error.2.2.2.1 gwBad4 [49] [104] t220 t250 t250 t550
     (by decide) (by decide) (by decide) (by decide) (by decide) (by decide)
     (by decide) (by decide) (by decide) (by decide) (by decide),
   SendPage_mismatch_exact_error.2.2.2.2 gwBad5 [49] [104] t220 t250 t250 t250 t550
     (by decide) (by decide) (by decide) (by decide) (by decide) (by decide)
     (by decide) (by decide) (by decide) (by decide) (by decide) (by decide)
     (by decide) (by decide)⟩

/-- C3: whenever the five responses read from the gateway begin with 220,
250, 250, 250, 221 — whatever text follows each prefix — and the writes
succeed, SendPage returns success (a nil error). -/
theorem SendPage_happy_path (g : Gateway) (n m s1 s2 s3 s4 s5 : List UInt8)
    (h1 : read g.r1 = ReadOutcome.ret s1 none) (q1 : startsWith s1 p220 = true)
    (hw1 : write g.w1 = none)
    (h2 : read g.r2 = ReadOutcome.ret s2 none) (q2 : startsWith s2 p250 = true)
    (hw2 : write g.w2 = none)
    (h3 : read g.r3 = ReadOutcome.ret s3 none) (q3 : startsWith s3 p250 = true)
    (hw3 : write g.w3 = none)
    (h4 : read g.r4 = ReadOutcome.ret s4 none) (q4 : startsWith s4 p250 = true)
    (hw4 : write g.w4 = none)
    (h5 : read g.r5 = ReadOutcome.ret s5 none) (q5 : startsWith s5 p221 = true) :
    (SendPage none g n m).1 = SPOutcome.ret none := by
  simp [SendPage, h1, q1, hw1, h2, q2, hw2, h3, q3, hw3, h4, q4, hw4, h5, q5]

/-- Witness for C3: the responses "220 Hi", "250 OK", "250 OK", "250 OK",
"221 Bye" — each with trailing text after the status prefix — yield a
nil-error return. -/
theorem SendPage_happy_path_check :
    (SendPage none gwGood [49] [104]).1 = SPOutcome.ret none :=
  SendPage_happy_path gwGood [49] [104] t220 t250 t250 t250 t221
    (by decide) (by decide) (by decide) (by decide) (by decide) (by decide)
    (by decide) (by decide) (by decide) (by decide) (by decide) (by decide)
    (by decide) (by decide)

/-- C4: whenever the dial succeeds and the invocation returns (it is not
stuck forever in a blocking read), the trace of a SendPage invocation
contains exactly one close of the connection — on success, on every protocol
rejection, on every transport error, and even when a short chunk makes the
reader panic (the deferred close runs during unwinding). -/
theorem SendPage_closes_connection_once (g : Gateway) (n m : List UInt8)
    (h : (SendPage none g n m).1 ≠ SPOutcome.blocked) :
    closes (SendPage none g n m).2 = 1 := by
  cases h1 : read g.r1 with
  | panics => simp [SendPage, h1, closes]
  | blocked => simp [SendPage, h1] at h
  | ret s1 e1 =>
    cases e1 with
    | some t => simp [SendPage, h1, closes]
    | none =>
      cases q1 : startsWith s1 p220 with
      | false => simp [SendPage, h1, q1, closes]
      | true =>
        cases hw1 : write g.w1 with
        | some t => simp [SendPage, h1, q1, hw1, closes]
        | none =>
          cases h2 : read g.r2 with
          | panics => simp [SendPage, h1, q1, hw1, h2, closes]
          | blocked => simp [SendPage, h1, q1, hw1, h2] at h
          | ret s2 e2 =>
            cases e2 with
            | some t => simp [SendPage, h1, q1, hw1, h2, closes]
            | none =>
              cases q2 : startsWith s2 p250 with
              | false => simp [SendPage, h1, q1, hw1, h2, q2, closes]
              | true =>
                cases hw2 : write g.w2 with
                | some t => simp [SendPage, h1, q1, hw1, h2, q2, hw2, closes]
                | none =>
                  cases h3 : read g.r3 with
                  | panics => simp [SendPage, h1, q1, hw1, h2, q2, hw2, h3, closes]
                  | blocked => simp [SendPage, h1, q1, hw1, h2, q2, hw2, h3] at h
                  | ret s3 e3 =>
                    cases e3 with
                    | some t => simp [SendPage, h1, q1, hw1, h2, q2, hw2, h3, closes]
                    | none =>
                      cases q3 : startsWith s3 p250 with
                      | false =>
                          simp [SendPage, h1, q1, hw1, h2, q2, hw2, h3, q3, closes]
                      | true =>
                        cases hw3 : write g.w3 with
                        | some t =>
                            simp [SendPage, h1, q1, hw1, h2, q2, hw2, h3, q3, hw3,
                              closes]
                        | none =>
                          cases h4 : read g.r4 with
                          | panics =>
                              simp [SendPage, h1, q1, hw1, h2, q2, hw2, h3, q3, hw3,
                                h4, closes]
                          | blocked =>
                              simp [SendPage, h1, q1, hw1, h2, q2, hw2, h3, q3, hw3,
                                h4] at h
                          | ret s4 e4 =>
                            cases e4 with
                            | some t =>
                                simp [SendPage, h1, q1, hw1, h2, q2, hw2, h3, q3,
                                  hw3, h4, closes]
                            | none =>
                              cases q4 : startsWith s4 p250 with
                              | false =>
                                  simp [SendPage, h1, q1, hw1, h2, q2, hw2, h3, q3,
                                    hw3, h4, q4, closes]
                              | true =>
                                cases hw4 : write g.w4 with
                                | some t =>
                                    simp [SendPage, h1, q1, hw1, h2, q2, hw2, h3,
                                      q3, hw3, h4, q4, hw4, closes]
                                | none =>
                                  cases h5 : read g.r5 with
                                  | panics =>
                                      simp [SendPage, h1, q1, hw1, h2, q2, hw2, h3,
                                        q3, hw3, h4, q4, hw4, h5, closes]
                                  | blocked =>
                                      simp [SendPage, h1, q1, hw1, h2, q2, hw2, h3,
                                        q3, hw3, h4, q4, hw4, h5] at h
                                  | ret s5 e5 =>
                                    cases e5 with
                                    | some t =>
                                        simp [SendPage, h1, q1, hw1, h2, q2, hw2,
                                          h3, q3, hw3, h4, q4, hw4, h5, closes]
                                    | none =>
                                      cases q5 : startsWith s5 p221 with
                                      | false =>
                                          simp [SendPage, h1, q1, hw1, h2, q2, hw2,
                                            h3, q3, hw3, h4, q4, hw4, h5, q5, closes]
                                      | true =>
                                          simp [SendPage, h1, q1, hw1, h2, q2, hw2,
                                            h3, q3, hw3, h4, q4, hw4, h5, q5, closes]

/-- Witness for C4: a full successful run against a concrete gateway closes
the connection exactly once. -/
theorem SendPage_closes_connection_once_check :
    closes (SendPage none gwGood [49] [104]).2 = 1 :=
  SendPage_closes_connection_once gwGood [49] [104] (by decide)

/-- C6: for a pager id and message free of embedded CR LF, a successful run
transmits exactly the four commands "PAGE <id> \r\n", "MESS <msg> \r\n",
"SEND \r\n", "QUIT \r\n", byte for byte, trailing space before each CR LF
included (the byte lists spell the ASCII codes out explicitly). -/
theorem SendPage_command_bytes (g : Gateway) (n m s1 s2 s3 s4 s5 : List UInt8)
    (hn : hasCRLF n = false) (hm : hasCRLF m = false)
    (h1 : read g.r1 = ReadOutcome.ret s1 none) (q1 : startsWith s1 p220 = true)
    (hw1 : write g.w1 = none)
    (h2 : read g.r2 = ReadOutcome.ret s2 none) (q2 : startsWith s2 p250 = true)
    (hw2 : write g.w2 = none)
    (h3 : read g.r3 = ReadOutcome.ret s3 none) (q3 : startsWith s3 p250 = true)
    (hw3 : write g.w3 = none)
    (h4 : read g.r4 = ReadOutcome.ret s4 none) (q4 : startsWith s4 p250 = true)
    (hw4 : write g.w4 = none)
    (h5 : read g.r5 = ReadOutcome.ret s5 none) (q5 : startsWith s5 p221 = true) :
    (SendPage none g n m).2 =
      [Event.writeCmd ([80, 65, 71, 69, 32] ++ n ++ [32, 13, 10]),
       Event.writeCmd ([77, 69, 83, 83, 32] ++ m ++ [32, 13, 10]),
       Event.writeCmd [83, 69, 78, 68, 32, 13, 10],
       Event.writeCmd [81, 85, 73, 84, 32, 13, 10],
       Event.close] := by
  have eP : ascii "PAGE " = [80, 65, 71, 69, 32] := by decide
  have eM : ascii "MESS " = [77, 69, 83, 83, 32] := by decide
  have eT : ascii " \r\n" = [32, 13, 10] := by decide
  have eS : SENDcmd = [83, 69, 78, 68, 32, 13, 10] := by decide
  have eQ : QUITcmd = [81, 85, 73, 84, 32, 13, 10] := by decide
  simp [SendPage, PAGEcmd, MESScmd, h1, q1, hw1, h2, q2, hw2, h3, q3, hw3,
    h4, q4, hw4, h5, q5, eP, eM, eT, eS, eQ]

/-- Witness for C6: pager id "1" and message "h" (no CR LF) yield the four
documented command strings on the wire. -/
theorem SendPage_command_bytes_check :
    hasCRLF [49] = false ∧ hasCRLF [104] = false ∧
      (SendPage none gwGood [49] [104]).2 =
        [Event.writeCmd ([80, 65, 71, 69, 32] ++ [49] ++ [32, 13, 10]),
         Event.writeCmd ([77, 69, 83, 83, 32] ++ [104] ++ [32, 13, 10]),
         Event.writeCmd [83, 69, 78, 68, 32, 13, 10],
         Event.writeCmd [81, 85, 73, 84, 32, 13, 10],
         Event.close] :=
  ⟨by decide, by decide,
    SendPage_command_bytes gwGood [49] [104] t220 t250 t250 t250 t221
      (by decide) (by decide) (by decide) (by decide) (by decide) (by decide)
      (by decide) (by decide) (by decide) (by decide) (by decide) (by decide)
      (by decide) (by decide) (by decide) (by decide)⟩

/-- C9: SendPage validates and escapes nothing: for every pager id and
message — embedded CR or LF included — the PAGE and MESS commands written
are the verbatim interpolations "PAGE " ++ id ++ " \r\n" and
"MESS " ++ msg ++ " \r\n", so caller-supplied CR LF goes straight onto the
wire as additional protocol lines. -/
theorem SendPage_verbatim_interpolation (g : Gateway) (n m s1 s2 s3 s4 s5 : List UInt8)
    (h1 : read g.r1 = ReadOutcome.ret s1 none) (q1 : startsWith s1 p220 = true)
    (hw1 : write g.w1 = none)
    (h2 : read g.r2 = ReadOutcome.ret s2 none) (q2 : startsWith s2 p250 = true)
    (hw2 : write g.w2 = none)
    (h3 : read g.r3 = ReadOutcome.ret s3 none) (q3 : startsWith s3 p250 = true)
    (hw3 : write g.w3 = none)
    (h4 : read g.r4 = ReadOutcome.ret s4 none) (q4 : startsWith s4 p250 = true)
    (hw4 : write g.w4 = none)
    (h5 : read g.r5 = ReadOutcome.ret s5 none) (q5 : startsWith s5 p221 = true) :
    (SendPage none g n m).2 =
      [Event.writeCmd ([80, 65, 71, 69, 32] ++ n ++ [32, 13, 10]),
       Event.writeCmd ([77, 69, 83, 83, 32] ++ m ++ [32, 13, 10]),
       Event.writeCmd [83, 69, 78, 68, 32, 13, 10],
       Event.writeCmd [81, 85, 73, 84, 32, 13, 10],
       Event.close] := by
  have eP : ascii "PAGE " = [80, 65, 71, 69, 32] := by decide
  have eM : ascii "MESS " = [77, 69, 83, 83, 32] := by decide
  have eT : ascii " \r\n" = [32, 13, 10] := by decide
  have eS : SENDcmd = [83, 69, 78, 68, 32, 13, 10] := by decide
  have eQ : QUITcmd = [81, 85, 73, 84, 32, 13, 10] := by decide
  simp [SendPage, PAGEcmd, MESScmd, h1, q1, hw1, h2, q2, hw2, h3, q3, hw3,
    h4, q4, hw4, h5, q5, eP, eM, eT, eS, eQ]

/-- Witness for C9: a pager id and a message each containing an embedded
CR LF are interpolated verbatim, producing extra protocol lines on the
wire. -/
theorem SendPage_verbatim_interpolation_check :
    hasCRLF [49, 13, 10, 50] = true ∧ hasCRLF [13, 10] = true ∧
      (SendPage none gwGood [49, 13, 10, 50] [13, 10]).2 =
        [Event.writeCmd ([80, 65, 71, 69, 32] ++ [49, 13, 10, 50] ++ [32, 13, 10]),
         Event.writeCmd ([77, 69, 83, 83, 32] ++ [13, 10] ++ [32, 13, 10]),
         Event.writeCmd [83, 69, 78, 68, 32, 13, 10],
         Event.writeCmd [81, 85, 73, 84, 32, 13, 10],
         Event.close] :=
  ⟨by decide, by decide,
    SendPage_verbatim_interpolation gwGood [49, 13, 10, 50] [13, 10]
      t220 t250 t250 t250 t221
      (by decide) (by decide) (by decide) (by decide) (by decide) (by decide)
      (by decide) (by decide) (by decide) (by decide) (by decide) (by decide)
      (by decide) (by decide)⟩

/-- C7: a transport I/O error from the reader (any non-EOF read error) or
from the writer (buffered-write or flush error) at any step makes SendPage
return that very error immediately — no later command is written — and
transport errors are distinct from all five protocol-rejection sentinels. -/
theorem SendPage_transport_error_short_circuits :
    (∀ (g : Gateway) (n m s1 : List UInt8) (t : Nat),
        read g.r1 = ReadOutcome.ret s1 (some t) →
        SendPage none g n m =
          (SPOutcome.ret (some (SnppError.transport t)), [Event.close])) ∧
    (∀ (g : Gateway) (n m s1 : List UInt8) (t : Nat),
        read g.r1 = ReadOutcome.ret s1 none → startsWith s1 p220 = true →
        write g.w1 = some t →
        SendPage none g n m =
          (SPOutcome.ret (some (SnppError.transport t)),
           [Event.writeCmd (PAGEcmd n), Event.close])) ∧
    (∀ (g : Gateway) (n m s1 s2 : List UInt8) (t : Nat),
        read g.r1 = ReadOutcome.ret s1 none → startsWith s1 p220 = true →
        write g.w1 = none →
        read g.r2 = ReadOutcome.ret s2 (some t) →
        SendPage none g n m =
          (SPOutcome.ret (some (SnppError.transport t)),
           [Event.writeCmd (PAGEcmd n), Event.close])) ∧
    (∀ (g : Gateway) (n m s1 s2 : List UInt8) (t : Nat),
        read g.r1 = ReadOutcome.ret s1 none → startsWith s1 p220 = true →
        write g.w1 = none →
        read g.r2 = ReadOutcome.ret s2 none → startsWith s2 p250 = true →
        write g.w2 = some t →
        SendPage none g n m =
          (SPOutcome.ret (some (SnppError.transport t)),
           [Event.writeCmd (PAGEcmd n), Event.writeCmd (MESScmd m), Event.close])) ∧
    (∀ (g : Gateway) (n m s1 s2 s3 : List UInt8) (t : Nat),
        read g.r1 = ReadOutcome.ret s1 none → startsWith s1 p220 = true →
        write g.w1 = none →
        read g.r2 = ReadOutcome.ret s2 none → startsWith s2 p250 = true →
        write g.w2 = none →
        read g.r3 = ReadOutcome.ret s3 (some t) →
        SendPage none g n m =
          (SPOutcome.ret (some (SnppError.transport t)),
           [Event.writeCmd (PAGEcmd n), Event.writeCmd (MESScmd m), Event.close])) ∧
    (∀ (g : Gateway) (n m s1 s2 s3 : List UInt8) (t : Nat),
        read g.r1 = ReadOutcome.ret s1 none → startsWith s1 p220 = true →
        write g.w1 = none →
        read g.r2 = ReadOutcome.ret s2 none → startsWith s2 p250 = true →
        write g.w2 = none →
        read g.r3 = ReadOutcome.ret s3 none → startsWith s3 p250 = true →
        write g.w3 = some t →
        SendPage none g n m =
          (SPOutcome.ret (some (SnppError.transport t)),
           [Event.writeCmd (PAGEcmd n), Event.writeCmd (MESScmd m),
            Event.writeCmd SENDcmd, Event.close])) ∧
    (∀ (g : Gateway) (n m s1 s2 s3 s4 : List UInt8) (t : Nat),
        read g.r1 = ReadOutcome.ret s1 none → startsWith s1 p220 = true →
        write g.w1 = none →
        read g.r2 = ReadOutcome.ret s2 none → startsWith s2 p250 = true →
        write g.w2 = none →
        read g.r3 = ReadOutcome.ret s3 none → startsWith s3 p250 = true →
        write g.w3 = none →
        read g.r4 = ReadOutcome.ret s4 (some t) →
        SendPage none g n m =
          (SPOutcome.ret (some (SnppError.transport t)),
           [Event.writeCmd (PAGEcmd n), Event.writeCmd (MESScmd m),
            Event.writeCmd SENDcmd, Event.close])) ∧
    (∀ (g : Gateway) (n m s1 s2 s3 s4 : List UInt8) (t : Nat),
        read g.r1 = ReadOutcome.ret s1 none → startsWith s1 p220 = true →
        write g.w1 = none →
        read g.r2 = ReadOutcome.ret s2 none → startsWith s2 p250 = true →
        write g.w2 = none →
        read g.r3 = ReadOutcome.ret s3 none → startsWith s3 p250 = true →
        write g.w3 = none →
        read g.r4 = ReadOutcome.ret s4 none → startsWith s4 p250 = true →
        write g.w4 = some t →
        SendPage none g n m =
          (SPOutcome.ret (some (SnppError.transport t)),
           [Event.writeCmd (PAGEcmd n), Event.writeCmd (MESScmd m),
            Event.writeCmd SENDcmd, Event.writeCmd QUITcmd, Event.close])) ∧
    (∀ (g : Gateway) (n m s1 s2 s3 s4 s5 : List UInt8) (t : Nat),
        read g.r1 = ReadOutcome.ret s1 none → startsWith s1 p220 = true →
        write g.w1 = none →
        read g.r2 = ReadOutcome.ret s2 none → startsWith s2 p250 = true →
        write g.w2 = none →
        read g.r3 = ReadOutcome.ret s3 none → startsWith s3 p250 = true →
        write g.w3 = none →
        read g.r4 = ReadOutcome.ret s4 none → startsWith s4 p250 = true →
        write g.w4 = none →
        read g.r5 = ReadOutcome.ret s5 (some t) →
        SendPage none g n m =
          (SPOutcome.ret (some (SnppError.transport t)),
           [Event.writeCmd (PAGEcmd n), Event.writeCmd (MESScmd m),
            Event.writeCmd SENDcmd, Event.writeCmd QUITcmd, Event.close])) ∧
    (∀ t : Nat,
        SnppError.transport t ≠ SnppError.failedConnection ∧
        SnppError.transport t ≠ SnppError.rejectedPhone ∧
        SnppError.transport t ≠ SnppError.rejectedMessage ∧
        SnppError.transport t ≠ SnppError.failedSend ∧
        SnppError.transport t ≠ SnppError.forceQuit) := by
  refine ⟨?_, ?_, ?_, ?_, ?_, ?_, ?_, ?_, ?_, ?_⟩
  · intro g n m s1 t h1
    simp [SendPage, h1]
  · intro g n m s1 t h1 q1 hw1
    simp [SendPage, h1, q1, hw1]
  · intro g n m s1 s2 t h1 q1 hw1 h2
    simp [SendPage, h1, q1, hw1, h2]
  · intro g n m s1 s2 t h1 q1 hw1 h2 q2 hw2
    simp [SendPage, h1, q1, hw1, h2, q2, hw2]
  · intro g n m s1 s2 s3 t h1 q1 hw1 h2 q2 hw2 h3
    simp [SendPage, h1, q1, hw1, h2, q2, hw2, h3]
  · intro g n m s1 s2 s3 t h1 q1 hw1 h2 q2 hw2 h3 q3 hw3
    simp [SendPage, h1, q1, hw1, h2, q2, hw2, h3, q3, hw3]
  · intro g n m s1 s2 s3 s4 t h1 q1 hw1 h2 q2 hw2 h3 q3 hw3 h4
    simp [SendPage, h1, q1, hw1, h2, q2, hw2, h3, q3, hw3, h4]
  · intro g n m s1 s2 s3 s4 t h1 q1 hw1 h2 q2 hw2 h3 q3 hw3 h4 q4 hw4
    simp [SendPage, h1, q1, hw1, h2, q2, hw2, h3, q3, hw3, h4, q4, hw4]
  · intro g n m s1 s2 s3 s4 s5 t h1 q1 hw1 h2 q2 hw2 h3 q3 hw3 h4 q4 hw4 h5
    simp [SendPage, h1, q1, hw1, h2, q2, hw2, h3, q3, hw3, h4, q4, hw4, h5]
  · intro t
    refine ⟨?_, ?_, ?_, ?_, ?_⟩ <;> simp

/-- Witness for C7: concrete gateways whose k-th read fails (tags 7, 9, 12,
14, 16) or whose k-th write fails (tags 8, 11, 13, 15 — at the buffered
write or at the flush) each produce exactly that transport error with no
later command on the wire. -/
theorem SendPage_transport_error_short_circuits_checks :
    SendPage none gwF1 [49] [104] =
      (SPOutcome.ret (some (SnppError.transport 7)), [Event.close]) ∧
    SendPage none gwW1 [49] [104] =
      (SPOutcome.ret (some (SnppError.transport 8)),
       [Event.writeCmd (PAGEcmd [49]), Event.close]) ∧
    SendPage none gwF2 [49] [104] =
      (SPOutcome.ret (some (SnppError.transport 9)),
       [Event.writeCmd (PAGEcmd [49]), Event.close]) ∧
    SendPage none gwW2 [49] [104] =
      (SPOutcome.ret (some (SnppError.transport 11)),
       [Event.writeCmd (PAGEcmd [49]), Event.writeCmd (MESScmd [104]), Event.close]) ∧
    SendPage none gwF3 [49] [104] =
      (SPOutcome.ret (some (SnppError.transport 12)),
       [Event.writeCmd (PAGEcmd [49]), Event.writeCmd (MESScmd [104]), Event.close]) ∧
    SendPage none gwW3 [49] [104] =
      (SPOutcome.ret (some (SnppError.transport 13)),
       [Event.writeCmd (PAGEcmd [49]), Event.writeCmd (MESScmd [104]),
        Event.writeCmd SENDcmd, Event.close]) ∧
    SendPage none gwF4 [49] [104] =
      (SPOutcome.ret (some (SnppError.transport 14)),
       [Event.writeCmd (PAGEcmd [49]), Event.writeCmd (MESScmd [104]),
        Event.writeCmd SENDcmd, Event.close]) ∧
    SendPage none gwW4 [49] [104] =
      (SPOutcome.ret (some (SnppError.transport 15)),
       [Event.writeCmd (PAGEcmd [49]), Event.writeCmd (MESScmd [104]),
        Event.writeCmd SENDcmd, Event.writeCmd QUITcmd, Event.close]) ∧
    SendPage none gwF5 [49] [104] =
      (SPOutcome.ret (some (SnppError.transport 16)),
       [Event.writeCmd (PAGEcmd [49]), Event.writeCmd (MESScmd [104]),
        Event.writeCmd SENDcmd, Event.writeCmd QUITcmd, Event.close]) ∧
    SnppError.transport 0 ≠ SnppError.failedConnection :=
  ⟨SendPage_transport_error_short_circuits.1 gwF1 [49] [104] [] 7 (by decide),
   SendPage_transport_error_short_circuits.2.1 gwW1 [49] [104] t220 8
     (by decide) (by decide) (by decide),
   SendPage_transport_error_short_circuits.2.2.1 gwF2 [49] [104] t220 [] 9
     (by decide) (by decide) (by decide) (by decide),
   SendPage_transport_error_short_circuits.2.2.2.1 gwW2 [49] [104] t220 t250 11
     (by decide) (by decide) (by decide) (by decide) (by decide) (by decide),
   SendPage_transport_error_short_circuits.2.2.2.2.1 gwF3 [49] [104] t220 t250 [] 12
     (by decide) (by decide) (by decide) (by decide) (by decide) (by decide)
     (by decide),
   SendPage_transport_error_short_circuits.2.2.2.2.2.1 gwW3 [49] [104]
     t220 t250 t250 13
     (by decide) (by decide) (by decide) (by decide) (by decide) (by decide)
     (by decide) (by decide) (by decide),
   SendPage_transport_error_short_circuits.2.2.2.2.2.2.1 gwF4 [49] [104]
     t220 t250 t250 [] 14
     (by decide) (by decide) (by decide) (by decide) (by decide) (by decide)
     (by decide) (by decide) (by decide) (by decide),
   SendPage_transport_error_short_circuits.2.2.2.2.2.2.2.1 gwW4 [49] [104]
     t220 t250 t250 t250 15
     (by decide) (by decide) (by decide) (by decide) (by decide) (by decide)
     (by decide) (by decide) (by decide) (by decide) (by decide) (by decide),
   SendPage_transport_error_short_circuits.2.2.2.2.2.2.2.2.1 gwF5 [49] [104]
     t220 t250 t250 t250 [] 16
     (by decide) (by decide) (by decide) (by decide) (by decide) (by decide)
     (by decide) (by decide) (by decide) (by decide) (by decide) (by decide)
     (by decide),
   (SendPage_transport_error_short_circuits.2.2.2.2.2.2.2.2.2 0).1⟩

end Snpp
